import Mathlib

/-!
Shallow embedding of `src/image_convert.py` (jumploop/ImageConvert).

Paths (`pathlib.Path`) are modelled as their component lists.  PIL images
are modelled by their colour mode string plus abstract pixel data.  The
filesystem and the PIL codec are modelled as an explicit environment of
functions (`Env`); fallible Python operations return `Except String`.
`try/except` blocks become `match` on those `Except` values.
-/

namespace ImageConvert

/-- A `pathlib.Path`, as its list of components (`Path.parts`); for a file
path the last component is the file name.  Joining with `/` concatenates
components (pathlib drops `.` components, so a `.`-relative path is the
empty list). -/
structure SPath where
  parts : List String
deriving DecidableEq, Repr

/-- `Path.name`: the last component (empty for an empty path). -/
def SPath.name (p : SPath) : String :=
  p.parts.getLastD ""

/-- `Path.parent`: drops the last component.  (The pathlib anchors `/` and
`.` are not needed by the claims and are not modelled.) -/
def SPath.parent (p : SPath) : SPath :=
  ⟨p.parts.dropLast⟩

/-- Index of the last occurrence of a character in a character list,
`str.rfind(c)` restricted to found results. -/
def findLastIdx (c : Char) : List Char → Option Nat
  | [] => none
  | x :: xs =>
    match findLastIdx c xs with
    | some i => some (i + 1)
    | none => if x = c then some 0 else none

/-- `PurePath.stem`: `i = name.rfind(chr(46))`; if `0 < i < len(name) - 1`
then `name[:i]` else `name`. -/
def pyStem (name : String) : String :=
  match findLastIdx '.' name.data with
  | some i => if 0 < i ∧ i + 1 < name.data.length then ⟨name.data.take i⟩ else name
  | none => name

/-- `PurePath.suffix`: `i = name.rfind(chr(46))`; if `0 < i < len(name) - 1`
then `name[i:]` else the empty string. -/
def pySuffix (name : String) : String :=
  match findLastIdx '.' name.data with
  | some i => if 0 < i ∧ i + 1 < name.data.length then ⟨name.data.drop i⟩ else ""
  | none => ""

/-- Python `str.upper()` (per-character, as for the ASCII strings the
program handles). -/
def strUpper (s : String) : String := ⟨s.data.map Char.toUpper⟩

/-- Python `str.lower()` (per-character, as for the ASCII strings the
program handles). -/
def strLower (s : String) : String := ⟨s.data.map Char.toLower⟩

/-- `Path.relative_to`: succeeds iff `base.parts` is a prefix of `p.parts`,
returning the remaining components; Python raises `ValueError` otherwise.
(`relative_to` of a path to itself is `Path(chr(46))`, whose `parts` is
empty, matching the empty list here.) -/
def SPath.relative_to (p base : SPath) : Option (List String) :=
  if base.parts <+: p.parts then some (p.parts.drop base.parts.length) else none

/-- `class ImageFormat(Enum)`: PNG, JPEG, GIF, BMP, WEBP. -/
inductive ImageFormat where
  | PNG
  | JPEG
  | GIF
  | BMP
  | WEBP
deriving DecidableEq, Repr

/-- `ImageFormat.__str__`: `self.name.lower()`. -/
def ImageFormat.str : ImageFormat → String
  | .PNG => "png"
  | .JPEG => "jpeg"
  | .GIF => "gif"
  | .BMP => "bmp"
  | .WEBP => "webp"

/-- `ImageFormat[x.upper()]` — Python `Enum` name lookup after uppercasing,
as used by `parse_args` (`type=lambda x: ImageFormat[x.upper()]`);
`KeyError` (hence an argparse error) becomes `none`. -/
def imageFormatOfName (u : String) : Option ImageFormat :=
  if u = "PNG" then some .PNG
  else if u = "JPEG" then some .JPEG
  else if u = "GIF" then some .GIF
  else if u = "BMP" then some .BMP
  else if u = "WEBP" then some .WEBP
  else none

/-- The format conversion applied to the command-line `-f` value. -/
def parseFormat (x : String) : Option ImageFormat :=
  imageFormatOfName (strUpper x)

/-- A PIL image: its colour mode string (`img.mode`, e.g. "RGBA", "RGB")
plus abstract pixel data (the claims never inspect pixels). -/
structure PILImage where
  mode : String
  data : Nat
deriving DecidableEq, Repr

/-- `img.convert(mode)`: returns an image in the requested mode (pixel
data is carried along abstractly). -/
def PILImage.convert (img : PILImage) (m : String) : PILImage :=
  { img with mode := m }

/-- `@dataclass(frozen=True) class ConversionResult`. -/
structure ConversionResult where
  input_path : SPath
  output_path : Option SPath
  success : Bool
  error_message : String := ""
deriving DecidableEq, Repr

/-- `@dataclass class ConversionStats` (`start_time` as an abstract
timestamp). -/
structure ConversionStats where
  total : Nat := 0
  success : Nat := 0
  failed : Nat := 0
  start_time : Nat
deriving DecidableEq, Repr

/-- `ConversionStats.update`: `self.success += result.success;
self.failed += not result.success` (Python bools add as 0/1). -/
def ConversionStats.update (s : ConversionStats) (r : ConversionResult) : ConversionStats :=
  { s with
    success := s.success + (if r.success then 1 else 0)
    failed := s.failed + (if r.success then 0 else 1) }

/-- `RGBAToRGBProcessor.process`:
`img.convert(RGB) if img.mode == RGBA else img`. -/
def RGBAToRGBProcessor.process (img : PILImage) : PILImage :=
  if img.mode = "RGBA" then img.convert "RGB" else img

/-- `ImageConverter._setup_processors`: `[RGBAToRGBProcessor()]` iff the
target format is JPEG or WEBP, else no processors. -/
def setup_processors (format : ImageFormat) : List (PILImage → PILImage) :=
  if format = .JPEG ∨ format = .WEBP then [RGBAToRGBProcessor.process] else []

/-- The `reduce(lambda i, p: p.process(i), self.processors, img)` step of
`convert_image`. -/
def applyProcessors (format : ImageFormat) (img : PILImage) : PILImage :=
  (setup_processors format).foldl (fun i p => p i) img

/-- `ImageSaver.save_kwargs` as an insertion-ordered key/value list:
`quality` always, plus `method = 6` exactly for WEBP. -/
def save_kwargs (format : ImageFormat) (quality : Nat) : List (String × Nat) :=
  ("quality", quality) :: (if format = .WEBP then [("method", 6)] else [])

/-- The external environment of `ImageConverter`: filesystem predicates
and the PIL codec.  Fallible operations return `Except String`, the error
text being `str(e)` of the Python exception (which nothing forces to be
non-empty). -/
structure Env where
  isFile : SPath → Bool
  isDir : SPath → Bool
  /-- `Path.glob(pattern)`.  For a path that is not an existing directory
  pathlib yields nothing (`_Selector.select_from` returns an empty
  iterator when `is_dir` is false), so a model of a missing root returns
  the empty list here. -/
  glob : SPath → String → List SPath
  openImage : SPath → Except String PILImage
  mkdir : SPath → Except String Unit
  save : PILImage → SPath → ImageFormat → List (String × Nat) → Except String Unit

/-- The immutable configuration held by `ImageConverter.__init__`. -/
structure Config where
  format : ImageFormat
  quality : Nat := 85
  recursive : Bool := false
  maintain_structure : Bool := false
deriving DecidableEq, Repr

/-- `ImageConverter.IMAGE_EXTENSIONS`. -/
def IMAGE_EXTENSIONS : List String :=
  [".png", ".jpg", ".jpeg", ".gif", ".bmp", ".webp"]

/-- `ImageConverter._get_output_path`, including its `mkdir` side effect.
`relative_path = input_path.relative_to(self.input_dir)` when
`maintain_structure` (a `ValueError` if the file is not under
`input_dir`), then `full_output_dir = output_dir / relative_path.parent`,
`full_output_dir.mkdir(parents=True, exist_ok=True)`, and the result is
`full_output_dir / (input_path.stem + chr(46) + str(self.format))`. -/
def get_output_path (env : Env) (cfg : Config) (input_dir : SPath)
    (input_path : SPath) (output_dir : SPath) : Except String SPath :=
  let fname := pyStem input_path.name ++ "." ++ cfg.format.str
  if cfg.maintain_structure then
    match input_path.relative_to input_dir with
    | none => .error ("ValueError: " ++ input_path.name ++ " is not in the subpath")
    | some rel =>
      let full_output_dir : SPath := ⟨output_dir.parts ++ rel.dropLast⟩
      match env.mkdir full_output_dir with
      | .error e => .error e
      | .ok _ => .ok ⟨full_output_dir.parts ++ [fname]⟩
  else
    match env.mkdir output_dir with
    | .error e => .error e
    | .ok _ => .ok ⟨output_dir.parts ++ [fname]⟩

/-- `ImageConverter.convert_image`: the whole body runs inside
`try: ... except Exception as e: return ConversionResult(input_path, None,
False, str(e))`, so every failure of open, preprocessing, output-path
resolution or save becomes a failed result and nothing propagates. -/
def convert_image (env : Env) (cfg : Config) (input_dir : SPath)
    (input_path : SPath) (output_dir : SPath) : ConversionResult :=
  match env.openImage input_path with
  | .error e => ⟨input_path, none, false, e⟩
  | .ok img0 =>
    let img := applyProcessors cfg.format img0
    match get_output_path env cfg input_dir input_path output_dir with
    | .error e => ⟨input_path, none, false, e⟩
    | .ok output_path =>
      match env.save img output_path cfg.format (save_kwargs cfg.format cfg.quality) with
      | .error e => ⟨input_path, none, false, e⟩
      | .ok _ => ⟨input_path, some output_path, true, ""⟩

/-- `ImageConverter.get_image_files`: glob with pattern `**/*` when
recursive else `*`, keeping regular files whose lower-cased suffix is a
recognised image extension. -/
def get_image_files (env : Env) (cfg : Config) (directory : SPath) : List SPath :=
  (env.glob directory (if cfg.recursive then "**/*" else "*")).filter
    (fun f => env.isFile f && IMAGE_EXTENSIONS.contains (strLower (pySuffix f.name)))

/-- One step of `iter(lambda: list(islice(iterator, chunk_size)), [])`:
take up to `chunk_size` elements, stop at the first empty chunk.  `fuel`
bounds the number of chunks produced; since every produced chunk is
non-empty, `l.length` chunks always suffice (see `chunked_iterator`). -/
def chunkedAux (chunk_size : Nat) : Nat → List α → List (List α)
  | 0, _ => []
  | fuel + 1, l =>
    match l.take chunk_size with
    | [] => []
    | c :: cs => (c :: cs) :: chunkedAux chunk_size fuel (l.drop chunk_size)

/-- `ImageConverter.chunked_iterator`:
`iter(lambda: list(islice(iterator, chunk_size)), [])` — repeatedly take
up to `chunk_size` elements, stopping at the first empty chunk (so a
chunk size of 0 yields no chunks at all). -/
def chunked_iterator (l : List α) (chunk_size : Nat) : List (List α) :=
  chunkedAux chunk_size l.length l

/-- `ImageConverter.process_files` followed by `_handle_result` on each
completed future: each file of the chunk is converted and the stats are
updated once per result.  The fold order is the submission order; claim
theorems quantify over completion orders as permutations. -/
def process_files (env : Env) (cfg : Config) (input_dir : SPath)
    (files : List SPath) (output_dir : SPath) (s : ConversionStats) : ConversionStats :=
  (files.map (fun f => convert_image env cfg input_dir f output_dir)).foldl
    ConversionStats.update s

/-- The candidate list `run` processes: `[input_path]` when the root is a
file, else `get_image_files` on it. -/
def discovered (env : Env) (cfg : Config) (input_path : SPath) : List SPath :=
  if env.isFile input_path then [input_path] else get_image_files env cfg input_path

/-- `run`'s `self.input_dir`: the root itself when it is a directory, else
its parent. -/
def run_input_dir (env : Env) (input_path : SPath) : SPath :=
  if env.isDir input_path then input_path else input_path.parent

/-- The list of per-task results one run produces (submission order);
completion order is an arbitrary permutation of it. -/
def task_results (env : Env) (cfg : Config) (input_path output_path : SPath) :
    List ConversionResult :=
  (discovered env cfg input_path).map
    (fun f => convert_image env cfg (run_input_dir env input_path) f output_path)

/-- `ImageConverter.run`: sets `input_dir` (the root itself when it is a
directory, else its parent), creates the output directory (the only
uncaught raise point, from `output_path.mkdir`), counts the candidates
into `stats.total` (re-running `get_image_files` on the same fixed
filesystem yields the same sequence), then processes the candidates in
chunks of 1000 and returns the final stats (`t0` is the abstract
`start_time` of the per-run `ConversionStats`). -/
def run (env : Env) (cfg : Config) (input_path output_path : SPath)
    (t0 : Nat) : Except String ConversionStats :=
  let input_dir := run_input_dir env input_path
  match env.mkdir output_path with
  | .error e => .error e
  | .ok _ =>
    let files := discovered env cfg input_path
    let s1 : ConversionStats := { total := files.length, start_time := t0 }
    .ok ((chunked_iterator files 1000).foldl
      (fun s chunk => process_files env cfg input_dir chunk output_path s) s1)

/-- A concrete test environment: a directory `root` holding `a.png` (an
RGBA image), a non-image `c.txt`, and a subdirectory `sub` with `b.jpg`
(an RGB image); the codec refuses to encode RGBA images, directory
creation always succeeds. -/
def sampleEnv : Env where
  isFile := fun p =>
    p.parts = ["root", "a.png"] || p.parts = ["root", "c.txt"] ||
      p.parts = ["root", "sub", "b.jpg"]
  isDir := fun p => p.parts = ["root"] || p.parts = ["root", "sub"]
  glob := fun p pat =>
    if p.parts = ["root"] ∧ pat = "*" then
      [⟨["root", "a.png"]⟩, ⟨["root", "c.txt"]⟩, ⟨["root", "sub"]⟩]
    else if p.parts = ["root"] ∧ pat = "**/*" then
      [⟨["root", "a.png"]⟩, ⟨["root", "c.txt"]⟩, ⟨["root", "sub"]⟩,
        ⟨["root", "sub", "b.jpg"]⟩]
    else []
  openImage := fun p =>
    if p.parts = ["root", "a.png"] then .ok ⟨"RGBA", 1⟩
    else if p.parts = ["root", "sub", "b.jpg"] then .ok ⟨"RGB", 2⟩
    else .error "cannot identify image file"
  mkdir := fun _ => .ok ()
  save := fun img _ _ _ =>
    if img.mode = "RGBA" then .error "cannot write mode RGBA" else .ok ()

/-- An environment in which the input root does not exist: `is_file` and
`is_dir` are false everywhere and `glob` yields nothing (pathlib's
behaviour on a non-directory), while creating the output directory still
succeeds. -/
def missingRootEnv : Env where
  isFile := fun _ => false
  isDir := fun _ => false
  glob := fun _ _ => []
  openImage := fun _ => .error "unreachable"
  mkdir := fun _ => .ok ()
  save := fun _ _ _ _ => .ok ()

/-- An environment whose codec raises an exception with an empty message
(`str(e)` of e.g. a bare `OSError()` is the empty string). -/
def emptyMsgEnv : Env where
  isFile := fun _ => false
  isDir := fun _ => false
  glob := fun _ _ => []
  openImage := fun _ => .error ""
  mkdir := fun _ => .ok ()
  save := fun _ _ _ _ => .ok ()

/-- The input root is invalid: it is not a file, not a directory, and
globbing it yields nothing (pathlib's `glob` returns an empty iterator
whenever the globbed path is not an existing directory, so a nonexistent
root, or one that is neither file nor directory, looks exactly like
this). -/
def rootInvalid (env : Env) (p : SPath) : Prop :=
  env.isFile p = false ∧ env.isDir p = false ∧ ∀ pat, env.glob p pat = []

/-! ### Helper lemmas -/

/-- With enough fuel (at least `l.length`), concatenating the chunks
gives back the input, for chunk size ≥ 1. -/
theorem chunkedAux_flatten (n : Nat) (hn : 1 ≤ n) (fuel : Nat) (l : List α)
    (hfuel : l.length ≤ fuel) : (chunkedAux n fuel l).flatten = l := by
  induction fuel generalizing l with
  | zero =>
    have : l = [] := List.eq_nil_of_length_eq_zero (Nat.le_zero.mp hfuel)
    simp [this, chunkedAux]
  | succ fuel ih =>
    rw [chunkedAux]
    split
    case h_1 heq =>
      rw [List.take_eq_nil_iff] at heq
      rcases heq with h0 | h0
      · omega
      · simp [h0]
    case h_2 c cs heq =>
      have hne : l.take n ≠ [] := by rw [heq]; exact List.cons_ne_nil _ _
      rw [Ne, List.take_eq_nil_iff] at hne
      push_neg at hne
      have hl : 0 < l.length := List.length_pos.mpr hne.2
      have hdrop : (l.drop n).length ≤ fuel := by
        simp only [List.length_drop]; omega
      simp only [List.flatten_cons, ih (l.drop n) hdrop]
      rw [← heq, List.take_append_drop]

/-- Concatenating the chunks gives back the input, for chunk size ≥ 1. -/
theorem chunked_flatten (n : Nat) (hn : 1 ≤ n) (l : List α) :
    (chunked_iterator l n).flatten = l :=
  chunkedAux_flatten n hn l.length l (Nat.le_refl _)

/-- Every chunk produced with any fuel is non-empty and no longer than
the chunk size. -/
theorem chunkedAux_mem_bounds (n : Nat) (fuel : Nat) (l : List α) (c : List α)
    (hc : c ∈ chunkedAux n fuel l) : c ≠ [] ∧ c.length ≤ n := by
  induction fuel generalizing l with
  | zero => exact absurd hc (List.not_mem_nil c)
  | succ fuel ih =>
    rw [chunkedAux] at hc
    revert hc
    split
    case h_1 => intro hc; exact absurd hc (List.not_mem_nil c)
    case h_2 d ds heq =>
      intro hc
      rcases List.mem_cons.mp hc with h | h
      · subst h
        refine ⟨List.cons_ne_nil d ds, ?_⟩
        rw [← heq]
        exact List.length_take_le n l
      · exact ih (l.drop n) h

/-- Every chunk is non-empty and no longer than the chunk size. -/
theorem chunked_mem_bounds (n : Nat) (l : List α) (c : List α)
    (hc : c ∈ chunked_iterator l n) : c ≠ [] ∧ c.length ≤ n :=
  chunkedAux_mem_bounds n l.length l c hc

/-- Folding `update` adds the number of successful results to `success`,
the number of failed ones to `failed`, and never touches `total` or
`start_time`. -/
theorem foldl_update_eq (rs : List ConversionResult) (s : ConversionStats) :
    rs.foldl ConversionStats.update s =
      ⟨s.total, s.success + rs.countP (fun r => r.success),
        s.failed + rs.countP (fun r => !r.success), s.start_time⟩ := by
  induction rs generalizing s with
  | nil => simp
  | cons r rs ih =>
    simp only [List.foldl_cons, ih, List.countP_cons]
    rcases hsucc : r.success <;>
      simp [ConversionStats.update, hsucc, ConversionStats.mk.injEq] <;> omega

/-- Folding a function over bounded chunks equals folding it over the
whole list, for chunk size ≥ 1. -/
theorem foldl_chunked_eq (f : β → α → β) (n : Nat) (hn : 1 ≤ n) (l : List α) (b : β) :
    (chunked_iterator l n).foldl (fun acc c => c.foldl f acc) b = l.foldl f b := by
  conv_rhs => rw [← chunked_flatten n hn l]
  rw [List.foldl_flatten]

/-- A successful `run` returns exactly the chunk-fold of the discovered
candidates over the initial stats. -/
theorem run_ok_eq (env : Env) (cfg : Config) (input output : SPath) (t0 : Nat)
    (s : ConversionStats) (h : run env cfg input output t0 = .ok s) :
    s = (chunked_iterator (discovered env cfg input) 1000).foldl
      (fun acc chunk => process_files env cfg (run_input_dir env input) chunk output acc)
      { total := (discovered env cfg input).length, success := 0, failed := 0,
        start_time := t0 } := by
  unfold run at h
  cases hm : env.mkdir output with
  | error e => rw [hm] at h; exact absurd h (by simp)
  | ok u => rw [hm] at h; simp at h; exact h.symm

/-- A successful `run` equals the single-batch fold of all per-task
results over the initial stats. -/
theorem run_ok_eq_flat (env : Env) (cfg : Config) (input output : SPath) (t0 : Nat)
    (s : ConversionStats) (h : run env cfg input output t0 = .ok s) :
    s = (task_results env cfg input output).foldl ConversionStats.update
      { total := (discovered env cfg input).length, success := 0, failed := 0,
        start_time := t0 } := by
  rw [run_ok_eq env cfg input output t0 s h]
  simp only [process_files, task_results, List.foldl_map]
  exact foldl_chunked_eq _ 1000 (by omega) _ _

/-- The number of successes and failures in a result list sums to its
length. -/
theorem countP_success_add_countP_fail (rs : List ConversionResult) :
    rs.countP (fun r => r.success) + rs.countP (fun r => !r.success) = rs.length := by
  induction rs with
  | nil => simp
  | cons r rs ih =>
    simp only [List.countP_cons, List.length_cons]
    by_cases h : r.success <;> simp [h] <;> omega

/-! ### Claims -/

/-- C10: for every finite input sequence and every chunk size ≥ 1, the
lists produced by `chunked_iterator` concatenate to exactly the input in
its original order, and every produced list is non-empty of length at
most the chunk size — no candidate is dropped or duplicated by wave
splitting. -/
theorem C10_chunked_partition (l : List α) (n : Nat) (hn : 1 ≤ n) :
    (chunked_iterator l n).flatten = l ∧
      ∀ c ∈ chunked_iterator l n, c ≠ [] ∧ c.length ≤ n :=
  ⟨chunked_flatten n hn l, fun c hc => chunked_mem_bounds n l c hc⟩

/-- Witness for C10 at the list `[1, 2, 3, 4, 5]` with chunk size 2. -/
theorem C10_chunked_partition_witness :
    (chunked_iterator [1, 2, 3, 4, 5] 2).flatten = [1, 2, 3, 4, 5] ∧
      ∀ c ∈ chunked_iterator [1, 2, 3, 4, 5] 2, c ≠ [] ∧ c.length ≤ 2 :=
  C10_chunked_partition [1, 2, 3, 4, 5] 2 (by decide)

/-- C5: processing the candidates in waves of 1000 (as `run` does via
`chunked_iterator`) yields exactly the same final `ConversionStats` —
in particular the same total/succeeded/failed counters — as submitting
all candidates in a single batch. -/
theorem C5_chunked_eq_single_batch (env : Env) (cfg : Config) (input_dir : SPath)
    (files : List SPath) (output_dir : SPath) (s : ConversionStats) :
    (chunked_iterator files 1000).foldl
        (fun acc chunk => process_files env cfg input_dir chunk output_dir acc) s =
      (files.map (fun f => convert_image env cfg input_dir f output_dir)).foldl
        ConversionStats.update s := by
  simp only [process_files, List.foldl_map]
  exact foldl_chunked_eq _ 1000 (by omega) files s

/-- C1: over a fixed set of discovered candidates, the final summary
satisfies `succeeded + failed = total`: both for the stats a successful
`run` actually returns, and for the stats obtained by aggregating the
per-task results in any completion order whatsoever (any permutation of
the task results; the worker count only influences that order). -/
theorem C1_success_add_failed_eq_total (env : Env) (cfg : Config)
    (input output : SPath) (t0 : Nat) (s : ConversionStats)
    (order : List ConversionResult)
    (hrun : run env cfg input output t0 = .ok s)
    (horder : order.Perm (task_results env cfg input output)) :
    (s.success + s.failed = s.total) ∧
      ((order.foldl ConversionStats.update
          { total := (discovered env cfg input).length, success := 0, failed := 0,
            start_time := t0 }).success +
        (order.foldl ConversionStats.update
          { total := (discovered env cfg input).length, success := 0, failed := 0,
            start_time := t0 }).failed =
        (order.foldl ConversionStats.update
          { total := (discovered env cfg input).length, success := 0, failed := 0,
            start_time := t0 }).total) := by
  have hlen : order.length = (discovered env cfg input).length := by
    rw [horder.length_eq]
    simp [task_results]
  constructor
  · rw [run_ok_eq_flat env cfg input output t0 s hrun, foldl_update_eq]
    have hsum := countP_success_add_countP_fail (task_results env cfg input output)
    have htl : (task_results env cfg input output).length =
        (discovered env cfg input).length := by simp [task_results]
    simp only []
    omega
  · rw [foldl_update_eq]
    have hsum := countP_success_add_countP_fail order
    simp only []
    omega

/-- Witness for C1: a recursive run over `sampleEnv` discovers two
images, and the summary identity holds both for the run's stats and for
a reversed completion order of the two task results. -/
theorem C1_success_add_failed_eq_total_witness :
    ((⟨2, 2, 0, 5⟩ : ConversionStats).success + (⟨2, 2, 0, 5⟩ : ConversionStats).failed =
        (⟨2, 2, 0, 5⟩ : ConversionStats).total) ∧
      ((([⟨⟨["root", "sub", "b.jpg"]⟩, some ⟨["out", "b.webp"]⟩, true, ""⟩,
          ⟨⟨["root", "a.png"]⟩, some ⟨["out", "a.webp"]⟩, true, ""⟩] :
            List ConversionResult).foldl ConversionStats.update
          { total := (discovered sampleEnv ⟨.WEBP, 80, true, false⟩ ⟨["root"]⟩).length,
            success := 0, failed := 0, start_time := 5 }).success +
        (([⟨⟨["root", "sub", "b.jpg"]⟩, some ⟨["out", "b.webp"]⟩, true, ""⟩,
          ⟨⟨["root", "a.png"]⟩, some ⟨["out", "a.webp"]⟩, true, ""⟩] :
            List ConversionResult).foldl ConversionStats.update
          { total := (discovered sampleEnv ⟨.WEBP, 80, true, false⟩ ⟨["root"]⟩).length,
            success := 0, failed := 0, start_time := 5 }).failed =
        (([⟨⟨["root", "sub", "b.jpg"]⟩, some ⟨["out", "b.webp"]⟩, true, ""⟩,
          ⟨⟨["root", "a.png"]⟩, some ⟨["out", "a.webp"]⟩, true, ""⟩] :
            List ConversionResult).foldl ConversionStats.update
          { total := (discovered sampleEnv ⟨.WEBP, 80, true, false⟩ ⟨["root"]⟩).length,
            success := 0, failed := 0, start_time := 5 }).total) :=
  C1_success_add_failed_eq_total sampleEnv ⟨.WEBP, 80, true, false⟩ ⟨["root"]⟩ ⟨["out"]⟩ 5
    ⟨2, 2, 0, 5⟩
    [⟨⟨["root", "sub", "b.jpg"]⟩, some ⟨["out", "b.webp"]⟩, true, ""⟩,
      ⟨⟨["root", "a.png"]⟩, some ⟨["out", "a.webp"]⟩, true, ""⟩]
    rfl (by decide)

/-- C7: `ConversionStats.update` increments exactly one of `success` /
`failed` by exactly one — `success` when the result is a success, else
`failed` — and leaves `total` and `start_time` unchanged; and the `total`
of a run's final stats equals the discovered-file count, set once before
any task is processed (updates never touch it), with `start_time` still
the run's creation timestamp. -/
theorem C7_update_frame_and_total (s : ConversionStats) (r : ConversionResult)
    (env : Env) (cfg : Config) (input output : SPath) (t0 : Nat)
    (final : ConversionStats)
    (hrun : run env cfg input output t0 = .ok final) :
    ((s.update r).total = s.total ∧ (s.update r).start_time = s.start_time) ∧
      ((r.success = true ∧ (s.update r).success = s.success + 1 ∧
          (s.update r).failed = s.failed) ∨
        (r.success = false ∧ (s.update r).failed = s.failed + 1 ∧
          (s.update r).success = s.success)) ∧
      (final.total = (discovered env cfg input).length ∧ final.start_time = t0) := by
  refine ⟨⟨rfl, rfl⟩, ?_, ?_⟩
  · rcases h : r.success
    · right
      simp [ConversionStats.update, h]
    · left
      simp [ConversionStats.update, h]
  · rw [run_ok_eq_flat env cfg input output t0 final hrun, foldl_update_eq]
    exact ⟨rfl, rfl⟩

/-- Witness for C7: updating with a failed result on `sampleEnv`'s
single-file run. -/
theorem C7_update_frame_and_total_witness :
    (((⟨3, 1, 1, 9⟩ : ConversionStats).update ⟨⟨["x"]⟩, none, false, "boom"⟩).total =
        (⟨3, 1, 1, 9⟩ : ConversionStats).total ∧
      ((⟨3, 1, 1, 9⟩ : ConversionStats).update ⟨⟨["x"]⟩, none, false, "boom"⟩).start_time =
        (⟨3, 1, 1, 9⟩ : ConversionStats).start_time) ∧
      (((⟨⟨["x"]⟩, none, false, "boom"⟩ : ConversionResult).success = true ∧
          ((⟨3, 1, 1, 9⟩ : ConversionStats).update ⟨⟨["x"]⟩, none, false, "boom"⟩).success =
            (⟨3, 1, 1, 9⟩ : ConversionStats).success + 1 ∧
          ((⟨3, 1, 1, 9⟩ : ConversionStats).update ⟨⟨["x"]⟩, none, false, "boom"⟩).failed =
            (⟨3, 1, 1, 9⟩ : ConversionStats).failed) ∨
        ((⟨⟨["x"]⟩, none, false, "boom"⟩ : ConversionResult).success = false ∧
          ((⟨3, 1, 1, 9⟩ : ConversionStats).update ⟨⟨["x"]⟩, none, false, "boom"⟩).failed =
            (⟨3, 1, 1, 9⟩ : ConversionStats).failed + 1 ∧
          ((⟨3, 1, 1, 9⟩ : ConversionStats).update ⟨⟨["x"]⟩, none, false, "boom"⟩).success =
            (⟨3, 1, 1, 9⟩ : ConversionStats).success)) ∧
      ((⟨1, 1, 0, 7⟩ : ConversionStats).total =
          (discovered sampleEnv ⟨.JPEG, 85, false, false⟩ ⟨["root", "a.png"]⟩).length ∧
        (⟨1, 1, 0, 7⟩ : ConversionStats).start_time = 7) :=
  C7_update_frame_and_total ⟨3, 1, 1, 9⟩ ⟨⟨["x"]⟩, none, false, "boom"⟩
    sampleEnv ⟨.JPEG, 85, false, false⟩ ⟨["root", "a.png"]⟩ ⟨["out"]⟩ 7
    ⟨1, 1, 0, 7⟩ rfl

/-- C2 (counterexample): when the codec raises an exception whose text is
empty (`str(e)` of a bare exception), `convert_image` returns a failed
result whose error description is the empty string — the claim's
"non-empty error description" does not hold. -/
theorem C2_empty_error_counterexample :
    (convert_image emptyMsgEnv ⟨ImageFormat.PNG, 85, false, false⟩ ⟨["root"]⟩
        ⟨["root", "a.png"]⟩ ⟨["out"]⟩).success = false ∧
      (convert_image emptyMsgEnv ⟨ImageFormat.PNG, 85, false, false⟩ ⟨["root"]⟩
        ⟨["root", "a.png"]⟩ ⟨["out"]⟩).error_message = "" := by
  decide

/-- C2 (amended): `convert_image` is total — every failure of open, path
resolution or save is returned as a failed `ConversionResult` with an
absent output path and an error description equal to the caught
exception's text (which may be empty), while every success carries the
output path and an empty error description; the input path is always
echoed back. -/
theorem C2_convert_result_shape (env : Env) (cfg : Config)
    (input_dir input_path output_dir : SPath) :
    ((convert_image env cfg input_dir input_path output_dir).input_path = input_path) ∧
      ((convert_image env cfg input_dir input_path output_dir).success = true →
        ((convert_image env cfg input_dir input_path output_dir).output_path.isSome ∧
          (convert_image env cfg input_dir input_path output_dir).error_message = "")) ∧
      ((convert_image env cfg input_dir input_path output_dir).success = false →
        ((convert_image env cfg input_dir input_path output_dir).output_path = none ∧
          ((∃ e, env.openImage input_path = Except.error e ∧
              (convert_image env cfg input_dir input_path output_dir).error_message = e) ∨
            (∃ e, get_output_path env cfg input_dir input_path output_dir =
                Except.error e ∧
              (convert_image env cfg input_dir input_path output_dir).error_message = e) ∨
            (∃ img outp e, env.openImage input_path = Except.ok img ∧
              get_output_path env cfg input_dir input_path output_dir = Except.ok outp ∧
              env.save (applyProcessors cfg.format img) outp cfg.format
                  (save_kwargs cfg.format cfg.quality) = Except.error e ∧
              (convert_image env cfg input_dir input_path output_dir).error_message = e)))) := by
  cases hopen : env.openImage input_path with
  | error e => simp [convert_image, hopen]
  | ok img =>
    cases hpath : get_output_path env cfg input_dir input_path output_dir with
    | error e => simp [convert_image, hopen, hpath]
    | ok outp =>
      cases hsave : env.save (applyProcessors cfg.format img) outp cfg.format
          (save_kwargs cfg.format cfg.quality) with
      | error e => simp [convert_image, hopen, hpath, hsave]
      | ok u => simp [convert_image, hopen, hpath, hsave]

/-- Witness for C2 (amended), on `sampleEnv` at the non-image `c.txt`,
whose open fails. -/
theorem C2_convert_result_shape_witness :
    ((convert_image sampleEnv ⟨ImageFormat.WEBP, 80, false, false⟩ ⟨["root"]⟩
        ⟨["root", "c.txt"]⟩ ⟨["out"]⟩).input_path = ⟨["root", "c.txt"]⟩) ∧
      ((convert_image sampleEnv ⟨ImageFormat.WEBP, 80, false, false⟩ ⟨["root"]⟩
          ⟨["root", "c.txt"]⟩ ⟨["out"]⟩).success = true →
        ((convert_image sampleEnv ⟨ImageFormat.WEBP, 80, false, false⟩ ⟨["root"]⟩
            ⟨["root", "c.txt"]⟩ ⟨["out"]⟩).output_path.isSome ∧
          (convert_image sampleEnv ⟨ImageFormat.WEBP, 80, false, false⟩ ⟨["root"]⟩
            ⟨["root", "c.txt"]⟩ ⟨["out"]⟩).error_message = "")) ∧
      ((convert_image sampleEnv ⟨ImageFormat.WEBP, 80, false, false⟩ ⟨["root"]⟩
          ⟨["root", "c.txt"]⟩ ⟨["out"]⟩).success = false →
        ((convert_image sampleEnv ⟨ImageFormat.WEBP, 80, false, false⟩ ⟨["root"]⟩
            ⟨["root", "c.txt"]⟩ ⟨["out"]⟩).output_path = none ∧
          ((∃ e, sampleEnv.openImage ⟨["root", "c.txt"]⟩ = Except.error e ∧
              (convert_image sampleEnv ⟨ImageFormat.WEBP, 80, false, false⟩ ⟨["root"]⟩
                ⟨["root", "c.txt"]⟩ ⟨["out"]⟩).error_message = e) ∨
            (∃ e, get_output_path sampleEnv ⟨ImageFormat.WEBP, 80, false, false⟩ ⟨["root"]⟩
                ⟨["root", "c.txt"]⟩ ⟨["out"]⟩ = Except.error e ∧
              (convert_image sampleEnv ⟨ImageFormat.WEBP, 80, false, false⟩ ⟨["root"]⟩
                ⟨["root", "c.txt"]⟩ ⟨["out"]⟩).error_message = e) ∨
            (∃ img outp e, sampleEnv.openImage ⟨["root", "c.txt"]⟩ = Except.ok img ∧
              get_output_path sampleEnv ⟨ImageFormat.WEBP, 80, false, false⟩ ⟨["root"]⟩
                ⟨["root", "c.txt"]⟩ ⟨["out"]⟩ = Except.ok outp ∧
              sampleEnv.save (applyProcessors ImageFormat.WEBP img) outp ImageFormat.WEBP
                  (save_kwargs ImageFormat.WEBP 80) = Except.error e ∧
              (convert_image sampleEnv ⟨ImageFormat.WEBP, 80, false, false⟩ ⟨["root"]⟩
                ⟨["root", "c.txt"]⟩ ⟨["out"]⟩).error_message = e)))) :=
  C2_convert_result_shape sampleEnv ⟨ImageFormat.WEBP, 80, false, false⟩ ⟨["root"]⟩
    ⟨["root", "c.txt"]⟩ ⟨["out"]⟩

/-- C3 (counterexample): on a nonexistent input root the run does NOT
fail — there is no `DiscoveryError` anywhere in the program — it
completes normally, returning a summary with zero discovered files
(`is_file`/`is_dir` are false and pathlib's `glob` yields nothing for a
path that is not an existing directory, so the discovery loop simply
sees an empty sequence). -/
theorem C3_missing_root_counterexample :
    run missingRootEnv ⟨ImageFormat.WEBP, 80, false, false⟩ ⟨["nonexistent"]⟩
        ⟨["out"]⟩ 0 =
      .ok ⟨0, 0, 0, 0⟩ := rfl

/-- C3 (amended): for every input root that does not exist or is neither
a file nor a directory, the run completes normally (no exception, hence
no `DiscoveryError` — the code defines no such error) with zero
discovered files and a summary of `total = succeeded = failed = 0`,
provided only that the output directory can be created. -/
theorem C3_missing_root_completes_normally (env : Env) (cfg : Config)
    (input output : SPath) (t0 : Nat)
    (hroot : rootInvalid env input) (hmkdir : env.mkdir output = .ok ()) :
    run env cfg input output t0 = .ok ⟨0, 0, 0, t0⟩ := by
  unfold run
  rw [hmkdir]
  have hdisc : discovered env cfg input = [] := by
    simp [discovered, hroot.1, get_image_files, hroot.2.2]
  rw [hdisc]
  rfl

/-- Witness for C3 (amended) at the concrete missing-root environment. -/
theorem C3_missing_root_completes_normally_witness :
    run missingRootEnv ⟨ImageFormat.PNG, 85, true, true⟩ ⟨["gone"]⟩ ⟨["out"]⟩ 3 =
      .ok ⟨0, 0, 0, 3⟩ :=
  C3_missing_root_completes_normally missingRootEnv ⟨ImageFormat.PNG, 85, true, true⟩
    ⟨["gone"]⟩ ⟨["out"]⟩ 3 ⟨rfl, rfl, fun _ => rfl⟩ rfl

/-- C4: output-path resolution.  With mirroring disabled every output
lands flat at `out/<stem>.<ext>`; with mirroring enabled and a single-file
root, `run` resolves against the file's parent, so the output is again
flat at `out/<stem>.<ext>`; with mirroring enabled and a directory root,
a file at `root/ds.../nm` maps to `out/ds.../<stem>.<ext>`. -/
theorem C4_output_path_resolution (env : Env) (cfg : Config) (out : SPath) :
    (∀ input_dir p, env.mkdir out = .ok () →
        get_output_path env { cfg with maintain_structure := false } input_dir p out =
          .ok ⟨out.parts ++ [pyStem p.name ++ "." ++ cfg.format.str]⟩) ∧
      (∀ root ds nm, env.isDir root = false → env.mkdir out = .ok () →
          root.parts = ds ++ [nm] →
          get_output_path env { cfg with maintain_structure := true }
              (run_input_dir env root) root out =
            .ok ⟨out.parts ++ [pyStem nm ++ "." ++ cfg.format.str]⟩) ∧
      (∀ (root : SPath) (ds : List String) (nm : String) (p : SPath),
          env.isDir root = true → p.parts = root.parts ++ ds ++ [nm] →
          env.mkdir ⟨out.parts ++ ds⟩ = .ok () →
          get_output_path env { cfg with maintain_structure := true }
              (run_input_dir env root) p out =
            .ok ⟨out.parts ++ ds ++ [pyStem nm ++ "." ++ cfg.format.str]⟩) := by
  refine ⟨?_, ?_, ?_⟩
  · intro input_dir p hmkdir
    simp [get_output_path, hmkdir]
  · intro root ds nm hdir hmkdir hparts
    have hname : root.name = nm := by
      simp [SPath.name, hparts]
    simp only [run_input_dir, hdir, Bool.false_eq_true, if_false, get_output_path,
      SPath.parent, SPath.relative_to, hparts, hname, List.dropLast_concat,
      List.prefix_append, if_pos, List.drop_left]
    simp [hmkdir]
  · intro root ds nm p hdir hparts hmkdir
    have hname : p.name = nm := by
      simp [SPath.name, hparts]
    have hpre : root.parts <+: p.parts := by
      rw [hparts, List.append_assoc]
      exact List.prefix_append root.parts (ds ++ [nm])
    have hdrop : p.parts.drop root.parts.length = ds ++ [nm] := by
      rw [hparts, List.append_assoc]
      exact List.drop_left root.parts (ds ++ [nm])
    simp only [run_input_dir, hdir, if_true, get_output_path, SPath.relative_to,
      hpre, if_pos, hdrop, hname, List.dropLast_concat]
    simp [hmkdir, List.append_assoc]

/-- Witness for C4 on `sampleEnv`: flat output, single-file mirrored
output (flattened via the parent), and directory-root mirrored output. -/
theorem C4_output_path_resolution_witness :
    (get_output_path sampleEnv ⟨ImageFormat.WEBP, 80, false, false⟩ ⟨["anything"]⟩
        ⟨["root", "a.png"]⟩ ⟨["out"]⟩ = .ok ⟨["out", "a.webp"]⟩) ∧
      (get_output_path sampleEnv ⟨ImageFormat.WEBP, 80, false, true⟩
          (run_input_dir sampleEnv ⟨["root", "a.png"]⟩) ⟨["root", "a.png"]⟩ ⟨["out"]⟩ =
        .ok ⟨["out", "a.webp"]⟩) ∧
      (get_output_path sampleEnv ⟨ImageFormat.WEBP, 80, false, true⟩
          (run_input_dir sampleEnv ⟨["root"]⟩) ⟨["root", "sub", "b.jpg"]⟩ ⟨["out"]⟩ =
        .ok ⟨["out", "sub", "b.webp"]⟩) := by
  refine ⟨?_, ?_, ?_⟩
  · exact (C4_output_path_resolution sampleEnv ⟨ImageFormat.WEBP, 80, false, false⟩
      ⟨["out"]⟩).1 ⟨["anything"]⟩ ⟨["root", "a.png"]⟩ rfl
  · exact (C4_output_path_resolution sampleEnv ⟨ImageFormat.WEBP, 80, false, true⟩
      ⟨["out"]⟩).2.1 ⟨["root", "a.png"]⟩ ["root"] "a.png" rfl rfl rfl
  · exact (C4_output_path_resolution sampleEnv ⟨ImageFormat.WEBP, 80, false, true⟩
      ⟨["out"]⟩).2.2 ⟨["root"]⟩ ["sub"] "b.jpg" ⟨["root", "sub", "b.jpg"]⟩ rfl rfl rfl

/-- C6: when the target format requires an opaque mode (JPEG or WEBP),
an RGBA source is converted to RGB before encoding and a non-RGBA source
is left untouched; for any other target format no mode conversion is
applied at all; consequently, against any codec that only fails on RGBA
input, converting an RGBA source to JPEG or WEBP succeeds — the alpha
channel alone never produces a failed result. -/
theorem C6_alpha_flattening (cfg : Config) (img : PILImage) :
    ((cfg.format = .JPEG ∨ cfg.format = .WEBP) → img.mode = "RGBA" →
        applyProcessors cfg.format img = img.convert "RGB" ∧
          (applyProcessors cfg.format img).mode = "RGB") ∧
      ((cfg.format = .JPEG ∨ cfg.format = .WEBP) → img.mode ≠ "RGBA" →
        applyProcessors cfg.format img = img) ∧
      (¬(cfg.format = .JPEG ∨ cfg.format = .WEBP) →
        applyProcessors cfg.format img = img) ∧
      (∀ (env : Env) (input_dir input_path output_dir outp : SPath),
        (cfg.format = .JPEG ∨ cfg.format = .WEBP) →
        env.openImage input_path = .ok img →
        get_output_path env cfg input_dir input_path output_dir = .ok outp →
        (∀ i o f k, i.mode ≠ "RGBA" → env.save i o f k = .ok ()) →
        (convert_image env cfg input_dir input_path output_dir).success = true) := by
  have hmode : (cfg.format = .JPEG ∨ cfg.format = .WEBP) →
      (applyProcessors cfg.format img).mode ≠ "RGBA" := by
    intro hf
    by_cases h : img.mode = "RGBA" <;>
      simp [applyProcessors, setup_processors, hf, RGBAToRGBProcessor.process, h,
        PILImage.convert]
  refine ⟨?_, ?_, ?_, ?_⟩
  · intro hf h
    simp [applyProcessors, setup_processors, hf, RGBAToRGBProcessor.process, h,
      PILImage.convert]
  · intro hf h
    simp [applyProcessors, setup_processors, hf, RGBAToRGBProcessor.process, h]
  · intro hf
    simp [applyProcessors, setup_processors, hf]
  · intro env input_dir input_path output_dir outp hf hopen hpath hsave
    have := hsave (applyProcessors cfg.format img) outp cfg.format
      (save_kwargs cfg.format cfg.quality) (hmode hf)
    simp [convert_image, hopen, hpath, this]

/-- Witness for C6 on `sampleEnv`, whose codec rejects exactly RGBA
images: converting the RGBA `a.png` to WEBP succeeds. -/
theorem C6_alpha_flattening_witness :
    ((ImageFormat.WEBP = ImageFormat.JPEG ∨ ImageFormat.WEBP = ImageFormat.WEBP) →
        (⟨"RGBA", 1⟩ : PILImage).mode = "RGBA" →
        applyProcessors ImageFormat.WEBP ⟨"RGBA", 1⟩ =
            (⟨"RGBA", 1⟩ : PILImage).convert "RGB" ∧
          (applyProcessors ImageFormat.WEBP ⟨"RGBA", 1⟩).mode = "RGB") ∧
      ((ImageFormat.WEBP = ImageFormat.JPEG ∨ ImageFormat.WEBP = ImageFormat.WEBP) →
        (⟨"RGBA", 1⟩ : PILImage).mode ≠ "RGBA" →
        applyProcessors ImageFormat.WEBP ⟨"RGBA", 1⟩ = ⟨"RGBA", 1⟩) ∧
      (¬(ImageFormat.WEBP = ImageFormat.JPEG ∨ ImageFormat.WEBP = ImageFormat.WEBP) →
        applyProcessors ImageFormat.WEBP ⟨"RGBA", 1⟩ = ⟨"RGBA", 1⟩) ∧
      (∀ (env : Env) (input_dir input_path output_dir outp : SPath),
        (ImageFormat.WEBP = ImageFormat.JPEG ∨ ImageFormat.WEBP = ImageFormat.WEBP) →
        env.openImage input_path = .ok ⟨"RGBA", 1⟩ →
        get_output_path env ⟨ImageFormat.WEBP, 80, false, false⟩ input_dir input_path
            output_dir = .ok outp →
        (∀ i o f k, i.mode ≠ "RGBA" → env.save i o f k = .ok ()) →
        (convert_image env ⟨ImageFormat.WEBP, 80, false, false⟩ input_dir input_path
          output_dir).success = true) ∧
      (convert_image sampleEnv ⟨ImageFormat.WEBP, 80, false, false⟩ ⟨["root"]⟩
        ⟨["root", "a.png"]⟩ ⟨["out"]⟩).success = true := by
  have h := C6_alpha_flattening ⟨ImageFormat.WEBP, 80, false, false⟩ ⟨"RGBA", 1⟩
  refine ⟨h.1, h.2.1, h.2.2.1, h.2.2.2, ?_⟩
  exact h.2.2.2 sampleEnv ⟨["root"]⟩ ⟨["root", "a.png"]⟩ ⟨["out"]⟩ ⟨["out", "a.webp"]⟩
    (Or.inr rfl) rfl rfl (fun i o f k hi => by simp [sampleEnv, hi])

/-- C8 (counterexample): no alias is accepted — the string "jpg" is a
`KeyError` (rejected), not a synonym for "jpeg", because
`ImageFormat[x.upper()]` only accepts exact member names. -/
theorem C8_jpg_alias_counterexample :
    parseFormat "jpg" = none ∧ parseFormat "jpeg" = some ImageFormat.JPEG := by
  decide

/-- C8 (amended): constructing a format from user input uppercases the
string and accepts exactly the five member names PNG, JPEG, GIF, BMP,
WEBP; every other string — including the common three-letter variant
"jpg" — is a distinct error (a `KeyError`, surfacing as an argparse
rejection), never a silently-coerced default: no alias is accepted. -/
theorem C8_format_parsing (x : String) :
    (parseFormat x = none ↔
        strUpper x ∉ (["PNG", "JPEG", "GIF", "BMP", "WEBP"] : List String)) ∧
      (parseFormat x = some ImageFormat.JPEG ↔ strUpper x = "JPEG") := by
  unfold parseFormat imageFormatOfName
  split_ifs <;> simp_all

/-- Witness for C8 (amended) at the concrete strings "Png" and "jpg". -/
theorem C8_format_parsing_witness :
    ((parseFormat "Png" = none ↔
        strUpper "Png" ∉ (["PNG", "JPEG", "GIF", "BMP", "WEBP"] : List String)) ∧
      (parseFormat "Png" = some ImageFormat.JPEG ↔ strUpper "Png" = "JPEG")) ∧
      ((parseFormat "jpg" = none ↔
        strUpper "jpg" ∉ (["PNG", "JPEG", "GIF", "BMP", "WEBP"] : List String)) ∧
      (parseFormat "jpg" = some ImageFormat.JPEG ↔ strUpper "jpg" = "JPEG")) :=
  ⟨C8_format_parsing "Png", C8_format_parsing "jpg"⟩

/-- C9: the encode call always receives the configured quality parameter
(in particular for the quality-supporting formats JPEG and WEBP), and
receives `method = 6` exactly when the target format is WEBP; the
parameter list handed to `save` inside `convert_image` is
`save_kwargs cfg.format cfg.quality`, fixed by the configuration and
identical for every file. -/
theorem C9_save_parameters (cfg : Config) :
    (("quality", cfg.quality) ∈ save_kwargs cfg.format cfg.quality) ∧
      ((cfg.format = .JPEG ∨ cfg.format = .WEBP) →
        ("quality", cfg.quality) ∈ save_kwargs cfg.format cfg.quality) ∧
      ((∃ m, ("method", m) ∈ save_kwargs cfg.format cfg.quality) ↔
        cfg.format = .WEBP) ∧
      (∀ m, ("method", m) ∈ save_kwargs cfg.format cfg.quality → m = 6) ∧
      (∀ (env : Env) (input_dir input_path output_dir outp : SPath) (img : PILImage),
        env.openImage input_path = .ok img →
        get_output_path env cfg input_dir input_path output_dir = .ok outp →
        env.save (applyProcessors cfg.format img) outp cfg.format
            (save_kwargs cfg.format cfg.quality) = .ok () →
        convert_image env cfg input_dir input_path output_dir =
          ⟨input_path, some outp, true, ""⟩) := by
  refine ⟨List.mem_cons_self _ _, fun _ => List.mem_cons_self _ _, ?_, ?_, ?_⟩
  · cases hf : cfg.format <;> simp [save_kwargs]
  · intro m hm
    cases hf : cfg.format <;> (rw [hf] at hm; simp [save_kwargs] at hm)
    omega
  · intro env input_dir input_path output_dir outp img hopen hpath hsave
    simp [convert_image, hopen, hpath, hsave]

/-- Witness for C9 at a WEBP configuration with quality 80, evaluated on
`sampleEnv`'s RGBA `a.png`. -/
theorem C9_save_parameters_witness :
    (("quality", 80) ∈ save_kwargs ImageFormat.WEBP 80) ∧
      ((ImageFormat.WEBP = ImageFormat.JPEG ∨ ImageFormat.WEBP = ImageFormat.WEBP) →
        ("quality", 80) ∈ save_kwargs ImageFormat.WEBP 80) ∧
      ((∃ m, ("method", m) ∈ save_kwargs ImageFormat.WEBP 80) ↔
        ImageFormat.WEBP = ImageFormat.WEBP) ∧
      (∀ m, ("method", m) ∈ save_kwargs ImageFormat.WEBP 80 → m = 6) ∧
      (convert_image sampleEnv ⟨ImageFormat.WEBP, 80, false, false⟩ ⟨["root"]⟩
          ⟨["root", "a.png"]⟩ ⟨["out"]⟩ =
        ⟨⟨["root", "a.png"]⟩, some ⟨["out", "a.webp"]⟩, true, ""⟩) := by
  have h := C9_save_parameters ⟨ImageFormat.WEBP, 80, false, false⟩
  refine ⟨h.1, h.2.1, h.2.2.1, h.2.2.2.1, ?_⟩
  exact h.2.2.2.2 sampleEnv ⟨["root"]⟩ ⟨["root", "a.png"]⟩ ⟨["out"]⟩
    ⟨["out", "a.webp"]⟩ ⟨"RGBA", 1⟩ rfl rfl rfl

end ImageConvert
